import Mathlib

/-!
Shallow embedding of the wifi-stats-cli probe-and-parse subsystem
(src/parsers.ts, src/collector.ts and the aggregation step of src/cli.ts).

JavaScript numbers are modelled by `JsNum` (null / NaN / a rational value),
strings by Lean `String` over `List Char`, and the regular-expression
literals of the source by token lists interpreted with a leftmost,
greedy-with-backtracking matcher that mirrors the semantics JavaScript
`String.prototype.match` uses for these patterns.  External process
invocations are modelled by the result record `CommandResult`
(stdout, stderr, error present or not); the JSON decoding done by
`JSON.parse` in the speed-test probe is modelled by an explicit
`Option SpeedTestRawData` argument (decoded value, or `none` when the
output fails to decode), since `JSON.parse` is a platform primitive
rather than repository code.
-/

/-- Model of a JavaScript number-or-null field: `null`, `NaN`, or a value. -/
inductive JsNum where
  | null
  | nan
  | val (q : ℚ)
deriving DecidableEq

/-- JavaScript truthiness of a number-or-null: `null`, `NaN` and `0` are falsy. -/
def JsNum.truthy : JsNum → Bool
  | .val q => q != 0
  | _ => false

/-- JavaScript whitespace class (the ASCII part of `\s`, as used by `trim`,
`parseInt`/`parseFloat` skipping, and the `\s` regex class). -/
def isWs (c : Char) : Bool := c = ' ' || c = '\t' || c = '\n' || c = '\r' || c.toNat = 11 || c.toNat = 12

/-- ASCII digit class (`\d`). -/
def isDigit (c : Char) : Bool := '0' ≤ c && c ≤ '9'

/-- The `[\d.]` character class of the source's regexes. -/
def isDigitDot (c : Char) : Bool := isDigit c || c = '.'

/-- The JavaScript `.` regex class: any character except a line terminator. -/
def isDotChar (c : Char) : Bool := !(c = '\n' || c = '\r')

/-- Numeric value of an ASCII digit. -/
def digitVal (c : Char) : Nat := c.toNat - '0'.toNat

/-- Decimal value of a digit list. -/
def digitsToNat (l : List Char) : Nat := l.foldl (fun n c => 10 * n + digitVal c) 0

/-- JavaScript `String.prototype.trim` (ASCII whitespace). -/
def jsTrim (s : String) : String :=
  String.mk (((s.data.dropWhile isWs).reverse.dropWhile isWs).reverse)

/-- Split a character list at every occurrence of `c` (JavaScript `split`). -/
def splitOnCharAux (c : Char) : List Char → List Char → List (List Char)
  | [], acc => [acc.reverse]
  | a :: r, acc => if a = c then acc.reverse :: splitOnCharAux c r [] else splitOnCharAux c r (a :: acc)

/-- JavaScript `s.split(c)` for a one-character separator. -/
def jsSplitChar (c : Char) (s : String) : List String :=
  (splitOnCharAux c s.data []).map String.mk

/-- JavaScript `parts.join(":")`. -/
def joinColon : List String → String
  | [] => ""
  | [a] => a
  | a :: r => a ++ ":" ++ joinColon r

/-- Model of `Number.parseInt(s, 10)`: skip leading whitespace, optional sign,
longest leading digit run; `NaN` when no digit is found. -/
def jsParseInt (s : String) : JsNum :=
  let l := s.data.dropWhile isWs
  let sp : Int × List Char :=
    match l with
    | '-' :: r => (-1, r)
    | '+' :: r => (1, r)
    | r => (1, r)
  let ds := sp.2.takeWhile isDigit
  if ds = [] then .nan else .val ((sp.1 * (digitsToNat ds : Int) : Int) : ℚ)

/-- Model of `Number.parseFloat(s)` on sign/digits/dot/digits prefixes
(the only shapes the source feeds it): skip leading whitespace, optional
sign, integer digits, optional fraction; `NaN` when no digit is found. -/
def jsParseFloat (s : String) : JsNum :=
  let l := s.data.dropWhile isWs
  let sp : Int × List Char :=
    match l with
    | '-' :: r => (-1, r)
    | '+' :: r => (1, r)
    | r => (1, r)
  let intPart := sp.2.takeWhile isDigit
  let rest := sp.2.dropWhile isDigit
  let fracPart : List Char :=
    match rest with
    | '.' :: r => r.takeWhile isDigit
    | _ => []
  if intPart = [] ∧ fracPart = [] then .nan
  else
    let num : Int := sp.1 * ((digitsToNat intPart : Int) * (10 : Int) ^ fracPart.length + (digitsToNat fracPart : Int))
    .val (Rat.divInt num ((10 : Int) ^ fracPart.length))

/-- Simple regex tokens: a literal character, a single class character, greedy
class star / plus / optional, and an exact class repetition. -/
inductive RTok where
  | lit (c : Char)
  | one (p : Char → Bool)
  | many (p : Char → Bool)
  | many1 (p : Char → Bool)
  | exactN (p : Char → Bool) (n : Nat)
  | opt (p : Char → Bool)

/-- Regex tokens with capture groups (a group is a simple-token sequence;
the source's regexes have no nested groups). -/
inductive GTok where
  | tok (t : RTok)
  | cap (ts : List RTok)

/-- Length of the maximal leading run of class `p`. -/
def runLen (p : Char → Bool) : List Char → Nat
  | [] => 0
  | a :: r => if p a then runLen p r + 1 else 0

/-- First success of `f` over a list, in order. -/
def firstSome {α β : Type} (f : α → Option β) : List α → Option β
  | [] => none
  | a :: r => match f a with
      | some b => some b
      | none => firstSome f r

/-- Try `f n`, `f (n-1)`, …, `f lo`, longest first (greedy backtracking order). -/
def tryLens {α : Type} (f : Nat → Option α) (lo n : Nat) : Option α :=
  firstSome f (((List.range (n + 1)).filter (fun j => lo ≤ j)).reverse)

/-- Backtracking matcher for simple tokens in continuation style: greedy
quantifiers try the longest consumption first, retrying shorter ones when the
continuation fails, exactly as the JavaScript engine does on these patterns. -/
def matchR {α : Type} : List RTok → List Char → (List Char → Option α) → Option α
  | [], s, k => k s
  | RTok.lit c :: ts, s, k =>
      match s with
      | [] => none
      | a :: s2 => if a = c then matchR ts s2 k else none
  | RTok.one p :: ts, s, k =>
      match s with
      | [] => none
      | a :: s2 => if p a then matchR ts s2 k else none
  | RTok.many p :: ts, s, k =>
      tryLens (fun j => matchR ts (s.drop j) k) 0 (runLen p s)
  | RTok.many1 p :: ts, s, k =>
      let n := runLen p s
      if n = 0 then none else tryLens (fun j => matchR ts (s.drop j) k) 1 n
  | RTok.exactN p n :: ts, s, k =>
      if n ≤ s.length ∧ (s.take n).all p then matchR ts (s.drop n) k else none
  | RTok.opt p :: ts, s, k =>
      match s with
      | [] => matchR ts s k
      | a :: s2 =>
          if p a then
            match matchR ts s2 k with
            | some r => some r
            | none => matchR ts s k
          else matchR ts s k

/-- Matcher over tokens with captures: a capture group records the characters
its simple-token body consumed. -/
def matchG {α : Type} : List GTok → List Char → List (List Char) → (List Char → List (List Char) → Option α) → Option α
  | [], s, caps, k => k s caps
  | GTok.tok t :: ts, s, caps, k =>
      matchR [t] s (fun s2 => matchG ts s2 caps k)
  | GTok.cap rts :: ts, s, caps, k =>
      matchR rts s (fun s2 => matchG ts s2 (caps ++ [s.take (s.length - s2.length)]) k)

/-- Leftmost search: try a match starting at each position in order. -/
def searchTail (re : List GTok) : List Char → Option (List (List Char))
  | [] => matchG re [] [] (fun _ caps => some caps)
  | a :: s2 =>
      match matchG re (a :: s2) [] (fun _ caps => some caps) with
      | some caps => some caps
      | none => searchTail re s2

/-- Model of `s.match(re)` restricted to the capture groups: `none` when the
regex does not match, otherwise the list of captured substrings in order
(JavaScript `m[1]`, `m[2]`, …). -/
def jsMatch (re : List GTok) (s : String) : Option (List String) :=
  (searchTail re s.data).map (fun caps => caps.map String.mk)

/-- Literal-character token sequence for a literal fragment of a regex. -/
def lits (s : String) : List GTok := s.data.map (fun c => GTok.tok (RTok.lit c))

/-- Regex `/([\d.]+)% packet loss/` from `parsePingStats`. -/
def reLoss : List GTok := [GTok.cap [RTok.many1 isDigitDot]] ++ lits "% packet loss"

/-- Regex `/round-trip min\/avg\/max\/stddev = ([\d.]+)\/([\d.]+)\/([\d.]+)\/([\d.]+) ms/`
from `parsePingStats`. -/
def reRtt : List GTok :=
  lits "round-trip min/avg/max/stddev = "
    ++ [GTok.cap [RTok.many1 isDigitDot]] ++ lits "/"
    ++ [GTok.cap [RTok.many1 isDigitDot]] ++ lits "/"
    ++ [GTok.cap [RTok.many1 isDigitDot]] ++ lits "/"
    ++ [GTok.cap [RTok.many1 isDigitDot]] ++ lits " ms"

/-- Regex `/Current Network Information:\s*\n\s{12}(.+):/` from
`parseSystemProfilerOutput`. -/
def reProfilerSsid : List GTok :=
  lits "Current Network Information:"
    ++ [GTok.tok (RTok.many isWs), GTok.tok (RTok.lit '\n'), GTok.tok (RTok.exactN isWs 12),
        GTok.cap [RTok.many1 isDotChar]]
    ++ lits ":"

/-- Regex `/Signal \/ Noise: (-?\d+) dBm \/ (-?\d+) dBm/` from
`parseSystemProfilerOutput`. -/
def reSignalNoise : List GTok :=
  lits "Signal / Noise: "
    ++ [GTok.cap [RTok.opt (fun c => c = '-'), RTok.many1 isDigit]]
    ++ lits " dBm / "
    ++ [GTok.cap [RTok.opt (fun c => c = '-'), RTok.many1 isDigit]]
    ++ lits " dBm"

/-- Regex `/Channel: (\d+) \(([^)]+)\)/` from `parseSystemProfilerOutput`. -/
def reChannel : List GTok :=
  lits "Channel: "
    ++ [GTok.cap [RTok.many1 isDigit]]
    ++ lits " ("
    ++ [GTok.cap [RTok.many1 (fun c => !(c = ')'))]]
    ++ lits ")"

/-- Regex `/Transmit Rate: (\d+)/` from `parseSystemProfilerOutput`. -/
def reTransmitRate : List GTok :=
  lits "Transmit Rate: " ++ [GTok.cap [RTok.many1 isDigit]]

/-- Regex `/(\d+\.?\d*)GHz/i` (band annotation) from `parseSystemProfilerOutput`. -/
def reGhz : List GTok :=
  [GTok.cap [RTok.many1 isDigit, RTok.opt (fun c => c = '.'), RTok.many isDigit],
   GTok.tok (RTok.one (fun c => c = 'G' || c = 'g')),
   GTok.tok (RTok.one (fun c => c = 'H' || c = 'h')),
   GTok.tok (RTok.one (fun c => c = 'Z' || c = 'z'))]

/-- Regex `/nameserver\[0\] : ([\d.]+)/` from `getDnsServer`. -/
def reNameserver : List GTok :=
  lits "nameserver[0] : " ++ [GTok.cap [RTok.many1 isDigitDot]]

/-- Regex `/Query time: (\d+) msec/` from `dnsLookup`. -/
def reQueryTime : List GTok :=
  lits "Query time: " ++ [GTok.cap [RTok.many1 isDigit]] ++ lits " msec"

/-- The `WifiStats` record of src/parsers.ts. -/
structure WifiStats where
  ssid : Option String
  bssid : Option String
  signalDbm : JsNum
  noiseDbm : JsNum
  channel : JsNum
  band : Option String
  linkRateMbps : JsNum
deriving DecidableEq

/-- The `PingStats` record of src/parsers.ts. -/
structure PingStats where
  avgMs : JsNum
  jitterMs : JsNum
  lossPct : JsNum
deriving DecidableEq

/-- The key:value scan of `parseAirportOutput` (src/parsers.ts lines 18-28):
split into lines, skip lines without a colon, split each at every colon,
trim the first part as key and the rejoined remainder as value, skip empty
keys, and record the pairs in order (a later pair overwrites an earlier one
on lookup, like assignment into the JavaScript object). -/
def airportData (output : String) : List (String × String) :=
  (jsSplitChar '\n' output).foldl
    (fun data line =>
      match jsSplitChar ':' line with
      | [] => data
      | [_] => data
      | rawKey :: rest =>
          let key := jsTrim rawKey
          let value := jsTrim (joinColon rest)
          if key = "" then data else data ++ [(key, value)])
    []

/-- Lookup in the scanned data, last occurrence winning (JavaScript object
assignment overwrites duplicate keys). -/
def getField (data : List (String × String)) (key : String) : Option String :=
  (data.reverse.find? (fun kv => kv.1 = key)).map (fun kv => kv.2)

/-- The `parseAirportOutput` function of src/parsers.ts (lines 17-44). -/
def parseAirportOutput (output : String) : WifiStats :=
  let data := airportData output
  let channelValue : Option String :=
    match getField data "channel" with
    | some v => if v = "" then none else some ((jsSplitChar ',' v).headD "")
    | none => none
  let channel : JsNum :=
    match channelValue with
    | some cv => if cv = "" then .null else jsParseInt cv
    | none => .null
  let band : Option String :=
    match channel with
    | .val q => if q = 0 then none else if 14 < q then some "5 GHz" else some "2.4 GHz"
    | _ => none
  let numField : String → JsNum := fun key =>
    match getField data key with
    | some v => if v = "" then .null else jsParseInt v
    | none => .null
  { ssid := getField data "SSID"
    bssid := getField data "BSSID"
    signalDbm := numField "agrCtlRSSI"
    noiseDbm := numField "agrCtlNoise"
    channel := channel
    band := band
    linkRateMbps := numField "lastTxRate" }

/-- The `parseSystemProfilerOutput` function of src/parsers.ts (lines 46-68). -/
def parseSystemProfilerOutput (output : String) : WifiStats :=
  let ssidM := jsMatch reProfilerSsid output
  let signalM := jsMatch reSignalNoise output
  let channelM := jsMatch reChannel output
  let transmitM := jsMatch reTransmitRate output
  let channel : JsNum :=
    match channelM with
    | some caps => jsParseInt (caps.getD 0 "")
    | none => .null
  let band : Option String :=
    match channelM with
    | some caps =>
        let ann := caps.getD 1 ""
        if ann = "" then none
        else
          match jsMatch reGhz ann with
          | some bcaps => some ((bcaps.getD 0 "") ++ " GHz")
          | none => none
    | none => none
  { ssid := ssidM.map (fun caps => jsTrim (caps.getD 0 ""))
    bssid := none
    signalDbm :=
      match signalM with
      | some caps => jsParseInt (caps.getD 0 "")
      | none => .null
    noiseDbm :=
      match signalM with
      | some caps => jsParseInt (caps.getD 1 "")
      | none => .null
    channel := channel
    band := band
    linkRateMbps :=
      match transmitM with
      | some caps => jsParseInt (caps.getD 0 "")
      | none => .null }

/-- The `parsePingStats` function of src/parsers.ts (lines 70-81):
`avgMs` and `jitterMs` come from the second and fourth captures of the
round-trip quadruple, `lossPct` from the packet-loss percentage. -/
def parsePingStats (output : String) : PingStats :=
  let lossM := jsMatch reLoss output
  let rttM := jsMatch reRtt output
  { avgMs :=
      match rttM with
      | some caps => jsParseFloat (caps.getD 1 "")
      | none => .null
    jitterMs :=
      match rttM with
      | some caps => jsParseFloat (caps.getD 3 "")
      | none => .null
    lossPct :=
      match lossM with
      | some caps => jsParseFloat (caps.getD 0 "")
      | none => .null }

/-- The normalized result of one external-command invocation
(`CommandResult` in src/collector.ts): captured stdout and stderr, and
whether the invocation failed (`error` non-null). -/
structure CommandResult where
  stdout : String
  stderr : String
  error : Bool
deriving DecidableEq

/-- One external-command invocation as issued through `runCommand`:
command name, argument list, and the extra execution options passed in
(the third `runCommand` parameter, an empty record by default). -/
structure Invocation where
  command : String
  args : List String
  options : List (String × String)
deriving DecidableEq

/-- The fixed filesystem path of the primary Wi-Fi tool (`AIRPORT_PATH`). -/
def airportPath : String :=
  "/System/Library/PrivateFrameworks/Apple80211.framework/Versions/Current/Resources/airport"

/-- The primary Wi-Fi tool invocation (src/collector.ts line 92). -/
def airportInvocation : Invocation := ⟨airportPath, ["-I"], []⟩

/-- The fallback Wi-Fi tool invocation (src/collector.ts lines 104-108). -/
def profilerInvocation : Invocation :=
  ⟨"system_profiler", ["SPAirPortDataType", "-detailLevel", "basic"], []⟩

/-- The gateway probe invocation (src/collector.ts line 122). -/
def routeInvocation : Invocation := ⟨"route", ["-n", "get", "default"], []⟩

/-- The ping probe invocation (src/collector.ts line 137). -/
def pingInvocation (host : String) (count : Nat) : Invocation :=
  ⟨"ping", ["-n", "-c", toString count, host], []⟩

/-- The DNS-server probe invocation (src/collector.ts line 171). -/
def scutilInvocation : Invocation := ⟨"scutil", ["--dns"], []⟩

/-- The DNS-lookup probe invocation (src/collector.ts lines 186-188). -/
def digInvocation (host : String) (server : Option String) : Invocation :=
  ⟨"dig",
   ["+stats", "+tries=1", "+time=2", host]
     ++ (match server with
         | some s => ["@" ++ s]
         | none => []),
   []⟩

/-- The speed-test probe invocation (src/collector.ts line 213). -/
def speedtestInvocation : Invocation := ⟨"networkQuality", ["-c"], []⟩

/-- Every external-command invocation the probes issue in one run
(for given ping target, DNS host, sample count and optional DNS server). -/
def probeInvocations (host dnsHost : String) (count : Nat) (server : Option String) : List Invocation :=
  [airportInvocation, profilerInvocation, routeInvocation, pingInvocation host count,
   scutilInvocation, digInvocation dnsHost server, speedtestInvocation]

/-- Whether an invocation passes a per-call timeout option to the runner. -/
def hasTimeout (inv : Invocation) : Bool :=
  inv.options.any (fun kv => kv.1 == "timeout")

/-- The `getAirportInfo` probe (src/collector.ts lines 79-118) as a function
of the filesystem existence check and the two possible command results,
returning the probe value together with the invocations actually issued:
primary tool only if its path exists and it succeeds; otherwise the fallback;
`null` exactly when the reached fallback also errors. -/
def getAirportInfo (airportPathExists : Bool) (airportRes profilerRes : CommandResult) :
    Option WifiStats × List Invocation :=
  if airportPathExists then
    if !airportRes.error then
      (some (parseAirportOutput airportRes.stdout), [airportInvocation])
    else if profilerRes.error then
      (none, [airportInvocation, profilerInvocation])
    else
      (some (parseSystemProfilerOutput profilerRes.stdout), [airportInvocation, profilerInvocation])
  else if profilerRes.error then
    (none, [profilerInvocation])
  else
    (some (parseSystemProfilerOutput profilerRes.stdout), [profilerInvocation])

/-- The `PingResult` record of src/collector.ts. -/
structure PingResult where
  target : String
  avgMs : JsNum
  jitterMs : JsNum
  lossPct : JsNum
  samples : Nat
  error : Option String
deriving DecidableEq

/-- The `pingHost` probe (src/collector.ts lines 135-167) as a function of
the command result: when `!stats.avgMs && result.error` (JavaScript
truthiness: parsed average null, NaN or zero, and a process error), return
the all-null error outcome with `result.stderr || "ping failed"`; otherwise
return the parsed statistics with the stderr surfaced as the error string
when the process errored. -/
def pingHost (host : String) (count : Nat) (res : CommandResult) : PingResult :=
  let stats := parsePingStats res.stdout
  if stats.avgMs.truthy = false ∧ res.error = true then
    { target := host, avgMs := .null, jitterMs := .null, lossPct := .null, samples := count,
      error := some (if res.stderr = "" then "ping failed" else res.stderr) }
  else
    { target := host, avgMs := stats.avgMs, jitterMs := stats.jitterMs, lossPct := stats.lossPct,
      samples := count, error := if res.error then some res.stderr else none }

/-- The `getDnsServer` probe (src/collector.ts lines 169-182): first
`nameserver[0]` capture of the output, with the falsy guard of the source
(`if (!server) return null`). -/
def getDnsServer (res : CommandResult) : Option String :=
  let server : Option String := (jsMatch reNameserver res.stdout).map (fun caps => caps.getD 0 "")
  match server with
  | some s => if s = "" then none else some s
  | none => none

/-- The `DnsLookupResult` record of src/collector.ts. -/
structure DnsLookupResult where
  host : String
  server : Option String
  lookupMs : Option Int
  error : Option String
deriving DecidableEq

/-- The `dnsLookup` probe (src/collector.ts lines 184-209) as a function of
the command result: query time from the `Query time: N msec` capture;
no capture yields the error outcome with `result.stderr || "dns lookup
failed"`, otherwise the time with stderr surfaced when the process errored. -/
def dnsLookup (host : String) (server : Option String) (res : CommandResult) : DnsLookupResult :=
  let lookupMs : Option Int :=
    (jsMatch reQueryTime res.stdout).map (fun caps => (digitsToNat (caps.getD 0 "").data : Int))
  if lookupMs = none then
    { host := host, server := server, lookupMs := none,
      error := some (if res.stderr = "" then "dns lookup failed" else res.stderr) }
  else
    { host := host, server := server, lookupMs := lookupMs,
      error := if res.error then some res.stderr else none }

/-- The optional fields of the decoded `networkQuality -c` JSON object
(`SpeedTestRaw` in src/collector.ts); absent fields are `none`. -/
structure SpeedTestRawData where
  dl_throughput : Option ℚ
  ul_throughput : Option ℚ
  base_rtt : Option ℚ
  responsiveness : Option ℚ
  interface_name : Option String
  test_endpoint : Option String
  start_date : Option String
  end_date : Option String
  os_version : Option String
deriving DecidableEq

/-- The `raw` metadata sub-record of `SpeedTestResult`. -/
structure SpeedTestRawMeta where
  startDate : Option String
  endDate : Option String
  osVersion : Option String
deriving DecidableEq

/-- The `SpeedTestResult` record of src/collector.ts. -/
structure SpeedTestResult where
  downloadMbps : Option Int
  uploadMbps : Option Int
  baseRttMs : Option ℚ
  responsivenessMs : Option ℚ
  interfaceName : Option String
  endpoint : Option String
  raw : Option SpeedTestRawMeta
  error : Option String
deriving DecidableEq

/-- Exact rational division `a / b` (with the division-by-zero convention
of fields), written on numerators and denominators so that it evaluates by
kernel reduction; `ratDiv_eq_div` below identifies it with `a / b`. -/
def ratDiv (a b : ℚ) : ℚ := Rat.divInt (a.num * b.den) (a.den * b.num)

/-- JavaScript `Math.round`: round half toward positive infinity, that is
the floor of `q + 1/2` (`jsRound_eq` below), written on the numerator and
denominator so that it evaluates by kernel reduction. -/
def jsRound (q : ℚ) : Int := Rat.floor (Rat.divInt (2 * q.num + (q.den : Int)) (2 * (q.den : Int)))

/-- The `runSpeedTest` probe (src/collector.ts lines 211-272) as a function
of the command result and of the `JSON.parse` outcome (`none` = decode
failure): process failure yields the all-null outcome carrying
`result.stderr || "networkQuality failed"`; decode failure yields the
all-null outcome carrying the fixed parse-failure message; otherwise the
throughput fields are normalized by `x ? Math.round(x / 1_000_000) : null`
(JavaScript truthiness: an absent or zero throughput yields null). -/
def runSpeedTest (res : CommandResult) (decoded : Option SpeedTestRawData) : SpeedTestResult :=
  if res.error then
    { downloadMbps := none, uploadMbps := none, baseRttMs := none, responsivenessMs := none,
      interfaceName := none, endpoint := none, raw := none,
      error := some (if res.stderr = "" then "networkQuality failed" else res.stderr) }
  else
    match decoded with
    | none =>
        { downloadMbps := none, uploadMbps := none, baseRttMs := none, responsivenessMs := none,
          interfaceName := none, endpoint := none, raw := none,
          error := some "networkQuality output parse failed" }
    | some parsed =>
        { downloadMbps :=
            match parsed.dl_throughput with
            | some q => if q = 0 then none else some (jsRound (ratDiv q 1000000))
            | none => none
          uploadMbps :=
            match parsed.ul_throughput with
            | some q => if q = 0 then none else some (jsRound (ratDiv q 1000000))
            | none => none
          baseRttMs := parsed.base_rtt
          responsivenessMs := parsed.responsiveness
          interfaceName := parsed.interface_name
          endpoint := parsed.test_endpoint
          raw := some ⟨parsed.start_date, parsed.end_date, parsed.os_version⟩
          error := none }

/-- JavaScript truthiness of a string-or-null: null and the empty string
are falsy. -/
def strTruthy : Option String → Bool
  | some s => s != ""
  | none => false

/-- Truthiness of `r?.error` for an optional ping result. -/
def pingErrTruthy : Option PingResult → Bool
  | some r =>
      match r.error with
      | some e => e != ""
      | none => false
  | none => false

/-- Truthiness of `r?.error` for an optional DNS-lookup result. -/
def dnsErrTruthy : Option DnsLookupResult → Bool
  | some r =>
      match r.error with
      | some e => e != ""
      | none => false
  | none => false

/-- Truthiness of `r?.error` for an optional speed-test result. -/
def stErrTruthy : Option SpeedTestResult → Bool
  | some r =>
      match r.error with
      | some e => e != ""
      | none => false
  | none => false

/-- The aggregator's had-error computation (src/cli.ts `main`):
`!wifi || !gateway || !dnsServer || !routerPing || !internetPing ||
!dnsResult`, then `routerPing?.error || internetPing?.error ||
dnsResult?.error`, then `options.speedtest && speedtest?.error`. -/
def hadError (wifi : Option WifiStats) (gateway dnsServer : Option String)
    (routerPing internetPing : Option PingResult) (dnsResult : Option DnsLookupResult)
    (speedtestRequested : Bool) (speedtest : Option SpeedTestResult) : Bool :=
  let base := wifi.isNone || !(strTruthy gateway) || !(strTruthy dnsServer)
    || routerPing.isNone || internetPing.isNone || dnsResult.isNone
  let withProbeErrors := base || pingErrTruthy routerPing || pingErrTruthy internetPing
    || dnsErrTruthy dnsResult
  withProbeErrors || (speedtestRequested && stErrTruthy speedtest)

/-- The DNS source classification of src/cli.ts `main`:
`dnsServer && gateway && dnsServer === gateway ? "router" : "system"`. -/
def dnsSource (dnsServer gateway : Option String) : String :=
  if strTruthy dnsServer && strTruthy gateway && (dnsServer == gateway) then "router" else "system"

/-- A ping output sample with full statistics. -/
def pingOutSample : String :=
  "0.0% packet loss\nround-trip min/avg/max/stddev = 9.1/10.4/11.7/0.9 ms"

/-- A Wi-Fi record for the aggregation examples. -/
def c1Wifi : WifiStats := parseAirportOutput "SSID: Home\nchannel: 6"

/-- A ping result whose process succeeded and whose statistics parsed. -/
def c1OkPing : PingResult := pingHost "192.168.1.1" 12 ⟨pingOutSample, "", false⟩

/-- A ping result whose process succeeded but whose output parsed to no
statistics at all: every metric field is null and the error field is null. -/
def c1NullPing : PingResult := pingHost "1.1.1.1" 12 ⟨"no statistics here", "", false⟩

/-- A ping result whose statistics parsed but whose process failed with an
empty stderr: the error field is the non-null empty string. -/
def c1EmptyErrPing : PingResult := pingHost "1.1.1.1" 12 ⟨pingOutSample, "", true⟩

/-- A successful DNS-lookup result for the aggregation examples. -/
def c1Dns : DnsLookupResult :=
  dnsLookup "cloudflare.com" (some "192.168.1.1") ⟨";; Query time: 12 msec", "", false⟩

/-- A command result whose parsed round-trip average is exactly zero while
the process reported an error. -/
def c2Res : CommandResult :=
  ⟨"round-trip min/avg/max/stddev = 0.000/0.000/0.000/0.000 ms", "boom", true⟩

/-- A successful speed-test command result. -/
def stOk : CommandResult := ⟨"{}", "", false⟩

/-- A decoded speed-test output whose download throughput was measured as
exactly zero bits per second. -/
def rawZero : SpeedTestRawData := ⟨some 0, none, none, none, none, none, none, none, none⟩

/-- A decoded speed-test output with no download throughput field at all. -/
def rawAbsent : SpeedTestRawData := ⟨none, none, none, none, none, none, none, none, none⟩

/-- A failed speed-test process whose stderr happens to be exactly the
parse-failure message. -/
def c8Fail : CommandResult := ⟨"", "networkQuality output parse failed", true⟩

/-- A successful speed-test process whose output fails to decode. -/
def c8ParseFail : CommandResult := ⟨"not json", "", false⟩

/-- The kernel-reducible division agrees with field division on the rationals. -/
theorem ratDiv_eq_div (a b : ℚ) : ratDiv a b = a / b := by
  unfold ratDiv
  rw [Rat.divInt_eq_div]
  rcases eq_or_ne b 0 with hb | hb
  · subst hb
    simp
  · have hda : ((a.den : ℚ)) ≠ 0 := Nat.cast_ne_zero.mpr a.den_nz
    have hdb : ((b.den : ℚ)) ≠ 0 := Nat.cast_ne_zero.mpr b.den_nz
    have ha : ((a.num : ℚ)) = a * a.den := (div_eq_iff hda).mp (Rat.num_div_den a)
    have hb2 : ((b.num : ℚ)) = b * b.den := (div_eq_iff hdb).mp (Rat.num_div_den b)
    push_cast
    field_simp
    rw [ha, hb2]
    ring

/-- The kernel-reducible rounding is the floor of `q + 1/2`, JavaScript's
`Math.round`. -/
theorem jsRound_eq (q : ℚ) : jsRound q = Int.floor (q + 1 / 2) := by
  show Rat.floor _ = _
  have hd : ((q.den : ℚ)) ≠ 0 := Nat.cast_ne_zero.mpr q.den_nz
  have hnum : ((q.num : ℚ)) = q * q.den := (div_eq_iff hd).mp (Rat.num_div_den q)
  have h : Rat.divInt (2 * q.num + (q.den : Int)) (2 * (q.den : Int)) = q + 1 / 2 := by
    rw [Rat.divInt_eq_div]
    push_cast
    field_simp
    rw [hnum]
    ring
  rw [h]
  rfl

/-- String-or-null truthiness is false exactly on null and the empty string. -/
theorem strTruthy_false_iff (g : Option String) :
    strTruthy g = false ↔ g = none ∨ g = some "" := by
  cases g with
  | none => simp [strTruthy]
  | some s => simp [strTruthy]

/-- Truthiness of an optional ping result's error field, as a proposition. -/
theorem pingErrTruthy_true_iff (op : Option PingResult) :
    pingErrTruthy op = true ↔ ∃ r, op = some r ∧ ∃ e, r.error = some e ∧ e ≠ "" := by
  cases op with
  | none => simp [pingErrTruthy]
  | some r =>
      cases h : r.error with
      | none => simp [pingErrTruthy, h]
      | some e => simp [pingErrTruthy, h]

/-- Truthiness of an optional DNS-lookup result's error field, as a
proposition. -/
theorem dnsErrTruthy_true_iff (op : Option DnsLookupResult) :
    dnsErrTruthy op = true ↔ ∃ r, op = some r ∧ ∃ e, r.error = some e ∧ e ≠ "" := by
  cases op with
  | none => simp [dnsErrTruthy]
  | some r =>
      cases h : r.error with
      | none => simp [dnsErrTruthy, h]
      | some e => simp [dnsErrTruthy, h]

/-- Truthiness of an optional speed-test result's error field, as a
proposition. -/
theorem stErrTruthy_true_iff (op : Option SpeedTestResult) :
    stErrTruthy op = true ↔ ∃ r, op = some r ∧ ∃ e, r.error = some e ∧ e ≠ "" := by
  cases op with
  | none => simp [stErrTruthy]
  | some r =>
      cases h : r.error with
      | none => simp [stErrTruthy, h]
      | some e => simp [stErrTruthy, h]

/-- C1 counterexample: the aggregator's had-error signal ignores a mandatory
probe result whose mandatory numeric fields are all null when its error field
is null (first configuration: the internet ping parsed no statistics from a
successful process), and also ignores a non-null but empty error string
(second configuration: the router ping carries the non-null error value
produced by a failed process with empty stderr); in both configurations the
signal is false although the claim requires it to be true. -/
theorem hadError_missing_allnull_clause :
    (hadError (some c1Wifi) (some "192.168.1.1") (some "192.168.1.1")
        (some c1OkPing) (some c1NullPing) (some c1Dns) false none = false
      ∧ c1NullPing.avgMs = JsNum.null ∧ c1NullPing.jitterMs = JsNum.null
      ∧ c1NullPing.lossPct = JsNum.null ∧ c1NullPing.error = none)
    ∧ (hadError (some c1Wifi) (some "192.168.1.1") (some "192.168.1.1")
        (some c1EmptyErrPing) (some c1OkPing) (some c1Dns) false none = false
      ∧ c1EmptyErrPing.error = some "") := by
  decide

/-- C1 amended: the aggregator's had-error signal is true exactly when the
Wi-Fi result is null, the gateway or the DNS server is null or the empty
string, one of the router-ping, internet-ping or DNS-lookup results is null
or carries a non-empty error string, or the speed test was requested and its
outcome carries a non-empty error string; a result whose numeric fields are
all null but whose error field is null does not set the signal. -/
theorem hadError_characterization (wifi : Option WifiStats) (gateway dnsServer : Option String)
    (routerPing internetPing : Option PingResult) (dnsResult : Option DnsLookupResult)
    (speedtestRequested : Bool) (speedtest : Option SpeedTestResult) :
    hadError wifi gateway dnsServer routerPing internetPing dnsResult speedtestRequested speedtest = true
      ↔ (wifi = none ∨ (gateway = none ∨ gateway = some "") ∨ (dnsServer = none ∨ dnsServer = some "")
          ∨ routerPing = none ∨ internetPing = none ∨ dnsResult = none
          ∨ (∃ r, routerPing = some r ∧ ∃ e, r.error = some e ∧ e ≠ "")
          ∨ (∃ r, internetPing = some r ∧ ∃ e, r.error = some e ∧ e ≠ "")
          ∨ (∃ r, dnsResult = some r ∧ ∃ e, r.error = some e ∧ e ≠ "")
          ∨ (speedtestRequested = true ∧ ∃ r, speedtest = some r ∧ ∃ e, r.error = some e ∧ e ≠ "")) := by
  simp only [hadError, Bool.or_eq_true, Bool.and_eq_true, Bool.not_eq_true',
    Option.isNone_iff_eq_none, strTruthy_false_iff, pingErrTruthy_true_iff,
    dnsErrTruthy_true_iff, stErrTruthy_true_iff, or_assoc]

/-- A truthy parsed average is a non-null, non-NaN, nonzero value. -/
theorem JsNum.truthy_true_iff (x : JsNum) :
    x.truthy = true ↔ ∃ q : ℚ, x = JsNum.val q ∧ q ≠ 0 := by
  cases x with
  | null => simp [JsNum.truthy]
  | nan => simp [JsNum.truthy]
  | val q => simp [JsNum.truthy]

/-- C2 counterexample: on a run whose output parses to a round-trip average
of exactly zero while the process reported an error, the ping probe returns
the all-null error outcome even though the parser did extract an average
latency, contradicting the claim that this happens only when no average was
extracted. -/
theorem pingHost_zero_avg_counterexample :
    (parsePingStats c2Res.stdout).avgMs = JsNum.val 0
    ∧ c2Res.error = true
    ∧ pingHost "192.168.1.1" 3 c2Res =
        { target := "192.168.1.1", avgMs := JsNum.null, jitterMs := JsNum.null,
          lossPct := JsNum.null, samples := 3, error := some "boom" } := by
  decide

/-- C2 amended: the ping probe returns the all-null error outcome exactly
when the parsed average latency is JavaScript-falsy (null, NaN, or zero) and
the process reported an error; in every other case the parsed statistics are
preserved unchanged, with the process stderr surfaced as the error string
when the process errored and a null error otherwise; in the failure case the
error is the stderr, or the fixed ping-failed message when stderr is empty. -/
theorem pingHost_failure_policy (host : String) (count : Nat) (res : CommandResult) :
    (((pingHost host count res).avgMs = JsNum.null
        ∧ (pingHost host count res).jitterMs = JsNum.null
        ∧ (pingHost host count res).lossPct = JsNum.null
        ∧ (pingHost host count res).error ≠ none)
      ↔ ((parsePingStats res.stdout).avgMs.truthy = false ∧ res.error = true))
    ∧ (¬ ((parsePingStats res.stdout).avgMs.truthy = false ∧ res.error = true) →
        (pingHost host count res).avgMs = (parsePingStats res.stdout).avgMs
        ∧ (pingHost host count res).jitterMs = (parsePingStats res.stdout).jitterMs
        ∧ (pingHost host count res).lossPct = (parsePingStats res.stdout).lossPct
        ∧ (pingHost host count res).error = (if res.error then some res.stderr else none))
    ∧ (((parsePingStats res.stdout).avgMs.truthy = false ∧ res.error = true) →
        (pingHost host count res).error
          = some (if res.stderr = "" then "ping failed" else res.stderr)) := by
  by_cases h : (parsePingStats res.stdout).avgMs.truthy = false ∧ res.error = true
  · refine ⟨?_, fun hc => absurd h hc, fun _ => ?_⟩
    · simp [pingHost, h]
    · simp [pingHost, h]
  · refine ⟨?_, fun _ => ?_, fun hc => absurd hc h⟩
    · simp only [pingHost, if_neg h]
      constructor
      · rintro ⟨ha, -, -, he⟩
        rcases not_and_or.mp h with h1 | h2
        · rcases (JsNum.truthy_true_iff _).mp (Bool.not_eq_false _ |>.mp h1) with ⟨q, hq, -⟩
          rw [hq] at ha
          exact absurd ha (by simp)
        · rw [if_neg h2] at he
          exact absurd rfl he
      · intro hc
        exact absurd hc h
    · simp [pingHost, h]

/-- C2 witness: the failure branch at a concrete run with empty output and a
process error surfaces the stderr. -/
theorem pingHost_failure_policy_witness :
    (pingHost "h" 1 ⟨"", "x", true⟩).error = some "x" :=
  (pingHost_failure_policy "h" 1 ⟨"", "x", true⟩).2.2 (by decide)

/-- C3: the Wi-Fi probe's fallback chain: the probe result is null exactly
when the primary tool was unavailable or failed and the fallback invocation
also errored; a successful primary run is parsed by the adapter-format
parser with only the primary tool invoked; a reached and successful fallback
run is parsed by the system-info parser; the primary tool is never invoked
when its fixed filesystem path does not exist, and the fallback tool is
invoked exactly when the primary path is missing or the primary invocation
errored. -/
theorem getAirportInfo_fallback_chain (pathExists : Bool) (primary fallbackRes : CommandResult) :
    (((getAirportInfo pathExists primary fallbackRes).1 = none)
        ↔ ((pathExists = false ∨ primary.error = true) ∧ fallbackRes.error = true))
    ∧ (pathExists = true → primary.error = false →
        getAirportInfo pathExists primary fallbackRes
          = (some (parseAirportOutput primary.stdout), [airportInvocation]))
    ∧ ((pathExists = false ∨ primary.error = true) → fallbackRes.error = false →
        (getAirportInfo pathExists primary fallbackRes).1
          = some (parseSystemProfilerOutput fallbackRes.stdout))
    ∧ (pathExists = false →
        airportInvocation ∉ (getAirportInfo pathExists primary fallbackRes).2)
    ∧ ((pathExists = false ∨ primary.error = true)
        ↔ profilerInvocation ∈ (getAirportInfo pathExists primary fallbackRes).2) := by
  have hne : airportInvocation ≠ profilerInvocation := by decide
  cases pathExists with
  | false =>
      cases hf : fallbackRes.error with
      | false => simp [getAirportInfo, hf, hne, hne.symm]
      | true => simp [getAirportInfo, hf, hne, hne.symm]
  | true =>
      cases hp : primary.error with
      | false => simp [getAirportInfo, hp, hne, hne.symm]
      | true =>
          cases hf : fallbackRes.error with
          | false => simp [getAirportInfo, hp, hf, hne, hne.symm]
          | true => simp [getAirportInfo, hp, hf, hne, hne.symm]

/-- C3 witness: with the primary path present and a successful primary run,
the probe returns the parsed primary output having invoked only the primary
tool. -/
theorem getAirportInfo_fallback_chain_witness :
    getAirportInfo true ⟨"SSID: Home", "", false⟩ ⟨"", "", true⟩
      = (some (parseAirportOutput "SSID: Home"), [airportInvocation]) :=
  (getAirportInfo_fallback_chain true ⟨"SSID: Home", "", false⟩ ⟨"", "", true⟩).2.1 rfl rfl

/-- C4 counterexample: on the input line `channel: 0` the adapter-format
parser yields the non-null channel value 0 but a null band, contradicting
the claim that the band is null only when the channel is null. -/
theorem parseAirportOutput_band_zero_counterexample :
    (parseAirportOutput "channel: 0").channel = JsNum.val 0
    ∧ (parseAirportOutput "channel: 0").channel ≠ JsNum.null
    ∧ (parseAirportOutput "channel: 0").band = none := by
  decide

/-- The adapter-format parser's band is computed from its channel by the
source's truthiness-guarded conditional. -/
theorem parseAirportOutput_band_eq (s : String) :
    (parseAirportOutput s).band
      = (match (parseAirportOutput s).channel with
         | JsNum.val q => if q = 0 then none else if 14 < q then some "5 GHz" else some "2.4 GHz"
         | _ => none) := rfl

/-- C4 amended: the adapter-format parser takes only the leading numeric
token of the comma-separated channel value as the channel, and derives the
band deterministically from it: `5 GHz` for a parsed nonzero channel above
14, `2.4 GHz` for any other parsed nonzero non-NaN channel, and null when
the channel is null, NaN, or zero (the JavaScript-falsy channels, not only
null); in particular `channel: 48,1` yields channel 48 and band `5 GHz`,
and `channel: 6` yields band `2.4 GHz`. -/
theorem parseAirportOutput_band_derivation (s : String) :
    ((∀ q : ℚ, (parseAirportOutput s).channel = JsNum.val q → q ≠ 0 →
        (parseAirportOutput s).band = some (if 14 < q then "5 GHz" else "2.4 GHz"))
      ∧ ((parseAirportOutput s).channel = JsNum.null → (parseAirportOutput s).band = none)
      ∧ ((parseAirportOutput s).channel = JsNum.nan → (parseAirportOutput s).band = none)
      ∧ ((parseAirportOutput s).channel = JsNum.val 0 → (parseAirportOutput s).band = none))
    ∧ (parseAirportOutput "channel: 48,1").channel = JsNum.val 48
    ∧ (parseAirportOutput "channel: 48,1").band = some "5 GHz"
    ∧ (parseAirportOutput "channel: 6").channel = JsNum.val 6
    ∧ (parseAirportOutput "channel: 6").band = some "2.4 GHz" := by
  refine ⟨⟨?_, ?_, ?_, ?_⟩, by decide, by decide, by decide, by decide⟩
  · intro q hq hq0
    rw [parseAirportOutput_band_eq, hq]
    simp [hq0]
    split <;> simp
  · intro hq
    rw [parseAirportOutput_band_eq, hq]
  · intro hq
    rw [parseAirportOutput_band_eq, hq]
  · intro hq
    rw [parseAirportOutput_band_eq, hq]
    simp

/-- C4 witness: the derivation applied at the concrete input `channel: 6`
with channel value 6. -/
theorem parseAirportOutput_band_derivation_witness :
    (parseAirportOutput "channel: 6").band = some (if (14 : ℚ) < 6 then "5 GHz" else "2.4 GHz") :=
  (parseAirportOutput_band_derivation "channel: 6").1.1 6 (by decide) (by decide)

/-- The spec's ping-parser example input: a loss line reporting 0.0% and the
round-trip quadruple 9.123/10.456/11.789/0.987. -/
def pingSpecSample : String :=
  "12 packets transmitted, 12 packets received, 0.0% packet loss\nround-trip min/avg/max/stddev = 9.123/10.456/11.789/0.987 ms"

/-- C5: the ping-statistics parser takes `avgMs` from the second and
`jitterMs` from the fourth capture of the round-trip quadruple and `lossPct`
from the packet-loss capture, a captured loss parsing to exactly zero yields
the numeric value 0 rather than null, and on the spec's example input it
returns avgMs=10.456, jitterMs=0.987 and lossPct=0. -/
theorem parsePingStats_positions_and_zero_loss :
    (∀ (s : String) (caps : List String), jsMatch reRtt s = some caps →
        (parsePingStats s).avgMs = jsParseFloat (caps.getD 1 "")
        ∧ (parsePingStats s).jitterMs = jsParseFloat (caps.getD 3 ""))
    ∧ (∀ (s : String) (caps : List String), jsMatch reLoss s = some caps →
        jsParseFloat (caps.getD 0 "") = JsNum.val 0 →
        (parsePingStats s).lossPct = JsNum.val 0 ∧ JsNum.val 0 ≠ JsNum.null)
    ∧ parsePingStats pingSpecSample
        = { avgMs := JsNum.val (Rat.divInt 10456 1000), jitterMs := JsNum.val (Rat.divInt 987 1000),
            lossPct := JsNum.val 0 } := by
  refine ⟨fun s caps h => ?_, fun s caps h h0 => ?_, by decide⟩
  · constructor <;> simp [parsePingStats, h]
  · refine ⟨?_, by simp⟩
    simp only [parsePingStats, h]
    exact h0

/-- C5 witness: the zero-loss clause applied to the spec's example input
with its concrete captured loss string. -/
theorem parsePingStats_positions_and_zero_loss_witness :
    (parsePingStats pingSpecSample).lossPct = JsNum.val 0 ∧ JsNum.val 0 ≠ JsNum.null :=
  parsePingStats_positions_and_zero_loss.2.1 pingSpecSample ["0.0"] (by decide) (by decide)

/-- C6 counterexample: a decoded speed-test output whose download throughput
was measured as exactly zero produces a result identical to the one for an
output with no download throughput at all, so a measured zero is not
distinguishable from an absent measurement, and it is not normalized to the
rounded value 0 megabits per second but collapsed to null. -/
theorem speedtest_zero_throughput_counterexample :
    runSpeedTest stOk (some rawZero) = runSpeedTest stOk (some rawAbsent)
    ∧ rawZero.dl_throughput = some 0
    ∧ rawAbsent.dl_throughput = none
    ∧ (runSpeedTest stOk (some rawZero)).downloadMbps = none := by
  decide

/-- C6 amended: for a successfully decoded speed-test output, a present and
nonzero throughput field is normalized from bits per second to megabits per
second by rounding division by 1,000,000, while a throughput that is absent
or was measured as exactly zero yields null (a measured zero is therefore
not distinguishable from an absent measurement). -/
theorem speedtest_normalization (res : CommandResult) (raw : SpeedTestRawData) (q : ℚ) :
    res.error = false →
    ((raw.dl_throughput = some q → q ≠ 0 →
        (runSpeedTest res (some raw)).downloadMbps = some (jsRound (ratDiv q 1000000)))
      ∧ (raw.ul_throughput = some q → q ≠ 0 →
        (runSpeedTest res (some raw)).uploadMbps = some (jsRound (ratDiv q 1000000)))
      ∧ ((raw.dl_throughput = none ∨ raw.dl_throughput = some 0) →
        (runSpeedTest res (some raw)).downloadMbps = none)
      ∧ ((raw.ul_throughput = none ∨ raw.ul_throughput = some 0) →
        (runSpeedTest res (some raw)).uploadMbps = none)) := by
  intro he
  refine ⟨fun h h0 => ?_, fun h h0 => ?_, fun h => ?_, fun h => ?_⟩
  · simp [runSpeedTest, he, h, h0]
  · simp [runSpeedTest, he, h, h0]
  · rcases h with h | h <;> simp [runSpeedTest, he, h]
  · rcases h with h | h <;> simp [runSpeedTest, he, h]

/-- C6 witness: a download throughput of 12,345,678 bits per second is
normalized to 12 megabits per second. -/
theorem speedtest_normalization_witness :
    (runSpeedTest stOk (some ⟨some 12345678, none, none, none, none, none, none, none, none⟩)).downloadMbps
      = some (jsRound (ratDiv 12345678 1000000)) ∧ jsRound (ratDiv 12345678 1000000) = 12 :=
  ⟨(speedtest_normalization stOk ⟨some 12345678, none, none, none, none, none, none, none, none⟩
      12345678 rfl).1 rfl (by norm_num), by decide⟩

/-- C7 counterexample: the ping probe's invocation carries no per-call
timeout at all: its options record is empty (so no timeout is passed to the
process runner) and its argument list is exactly the numeric, count and host
flags with no time-bounding flag. -/
theorem ping_invocation_unbounded :
    pingInvocation "1.1.1.1" 12
      = { command := "ping", args := ["-n", "-c", "12", "1.1.1.1"], options := [] }
    ∧ hasTimeout (pingInvocation "1.1.1.1" 12) = false := by
  decide

/-- C7 amended: no probe invocation passes a per-call timeout option to the
process runner (every options record is empty); only the DNS-lookup
invocation bounds its own duration, through dig's `+tries=1` and `+time=2`
command-line flags; ping and the speed test are not time-bounded by the
code. -/
theorem probe_invocations_no_timeout (host dnsHost : String) (count : Nat) (server : Option String) :
    (∀ inv ∈ probeInvocations host dnsHost count server,
        inv.options = [] ∧ hasTimeout inv = false)
    ∧ "+time=2" ∈ (digInvocation dnsHost server).args
    ∧ "+tries=1" ∈ (digInvocation dnsHost server).args := by
  refine ⟨?_, ?_, ?_⟩
  · intro inv hinv
    simp only [probeInvocations, List.mem_cons, List.not_mem_nil, or_false] at hinv
    rcases hinv with h | h | h | h | h | h | h <;> subst h <;>
      simp [airportInvocation, profilerInvocation, routeInvocation, pingInvocation,
        scutilInvocation, digInvocation, speedtestInvocation, hasTimeout]
  · simp [digInvocation]
  · simp [digInvocation]

/-- C7 witness: the amended statement applied to the default hosts and
sample count, projected at the ping invocation. -/
theorem probe_invocations_no_timeout_witness :
    (pingInvocation "1.1.1.1" 12).options = []
    ∧ hasTimeout (pingInvocation "1.1.1.1" 12) = false :=
  (probe_invocations_no_timeout "1.1.1.1" "cloudflare.com" 12 none).1
    (pingInvocation "1.1.1.1" 12) (by simp [probeInvocations])

/-- C8 counterexample: a failed speed-test process whose stderr is exactly
the fixed parse-failure message produces the same error value as a
successful process whose output fails to decode, so the two failure modes'
error values are not always distinct. -/
theorem speedtest_error_collision :
    (runSpeedTest c8Fail none).error = some "networkQuality output parse failed"
    ∧ (runSpeedTest c8ParseFail none).error = some "networkQuality output parse failed"
    ∧ c8Fail.error = true ∧ c8ParseFail.error = false := by
  decide

/-- C8 amended: a failed speed-test process yields an outcome whose error is
its stderr (or the fixed process-failure message when stderr is empty) with
every metric and the raw block null; a successful process whose output fails
to decode yields the distinct fixed parse-failure error; the two error
values differ whenever the failed process's stderr is not itself exactly the
parse-failure message. -/
theorem speedtest_failure_modes (res res2 : CommandResult) (d d2 : Option SpeedTestRawData) :
    (res.error = true →
        (runSpeedTest res d).error
            = some (if res.stderr = "" then "networkQuality failed" else res.stderr)
        ∧ (runSpeedTest res d).downloadMbps = none
        ∧ (runSpeedTest res d).uploadMbps = none
        ∧ (runSpeedTest res d).baseRttMs = none
        ∧ (runSpeedTest res d).responsivenessMs = none
        ∧ (runSpeedTest res d).raw = none)
    ∧ (res2.error = false → d2 = none →
        (runSpeedTest res2 d2).error = some "networkQuality output parse failed")
    ∧ (res.error = true → res2.error = false → d2 = none →
        res.stderr ≠ "networkQuality output parse failed" →
        (runSpeedTest res d).error ≠ (runSpeedTest res2 d2).error) := by
  refine ⟨fun he => ?_, fun he2 hd2 => ?_, fun he he2 hd2 hs => ?_⟩
  · simp [runSpeedTest, he]
  · subst hd2
    simp [runSpeedTest, he2]
  · subst hd2
    simp only [runSpeedTest, he, he2, if_true, Bool.false_eq_true, if_false]
    by_cases h0 : res.stderr = ""
    · simp [h0]
    · simp [h0, hs]

/-- C8 witness: with a failed process whose stderr is a plain message and a
successful process with undecodable output, the two error values differ. -/
theorem speedtest_failure_modes_witness :
    (runSpeedTest ⟨"", "boom", true⟩ none).error ≠ (runSpeedTest ⟨"bad", "", false⟩ none).error :=
  (speedtest_failure_modes ⟨"", "boom", true⟩ ⟨"bad", "", false⟩ none none).2.2
    rfl rfl rfl (by decide)

/-- C9: each of the three text parsers is total by construction (each is a
Lean function defined for every input string), and every field whose source
pattern is absent from the input is null in the returned record: for the
adapter-format parser, each field is null when its key is absent from the
scanned data; for the system-info parser, each field is null when its regex
does not match (and `bssid` is always null); for the ping parser, the loss
field is null without a loss match and the average and jitter are null
without a round-trip match. -/
theorem text_parsers_total_absent_null (s : String) :
    ((getField (airportData s) "SSID" = none → (parseAirportOutput s).ssid = none)
      ∧ (getField (airportData s) "BSSID" = none → (parseAirportOutput s).bssid = none)
      ∧ (getField (airportData s) "agrCtlRSSI" = none → (parseAirportOutput s).signalDbm = JsNum.null)
      ∧ (getField (airportData s) "agrCtlNoise" = none → (parseAirportOutput s).noiseDbm = JsNum.null)
      ∧ (getField (airportData s) "channel" = none →
          (parseAirportOutput s).channel = JsNum.null ∧ (parseAirportOutput s).band = none)
      ∧ (getField (airportData s) "lastTxRate" = none → (parseAirportOutput s).linkRateMbps = JsNum.null))
    ∧ ((jsMatch reProfilerSsid s = none → (parseSystemProfilerOutput s).ssid = none)
      ∧ (parseSystemProfilerOutput s).bssid = none
      ∧ (jsMatch reSignalNoise s = none →
          (parseSystemProfilerOutput s).signalDbm = JsNum.null
          ∧ (parseSystemProfilerOutput s).noiseDbm = JsNum.null)
      ∧ (jsMatch reChannel s = none →
          (parseSystemProfilerOutput s).channel = JsNum.null ∧ (parseSystemProfilerOutput s).band = none)
      ∧ (jsMatch reTransmitRate s = none → (parseSystemProfilerOutput s).linkRateMbps = JsNum.null))
    ∧ ((jsMatch reLoss s = none → (parsePingStats s).lossPct = JsNum.null)
      ∧ (jsMatch reRtt s = none →
          (parsePingStats s).avgMs = JsNum.null ∧ (parsePingStats s).jitterMs = JsNum.null)) := by
  refine ⟨⟨?_, ?_, ?_, ?_, ?_, ?_⟩, ⟨?_, ?_, ?_, ?_, ?_⟩, ?_, ?_⟩ <;>
    · intros
      simp [parseAirportOutput, parseSystemProfilerOutput, parsePingStats, *]

/-- C9 witness: on the empty input, where every pattern is absent, all three
parsers return the fully-null records. -/
theorem text_parsers_total_absent_null_witness :
    (parseAirportOutput "").ssid = none
    ∧ ((parseAirportOutput "").channel = JsNum.null ∧ (parseAirportOutput "").band = none)
    ∧ (parseSystemProfilerOutput "").ssid = none
    ∧ (parsePingStats "").lossPct = JsNum.null :=
  ⟨(text_parsers_total_absent_null "").1.1 (by decide),
   (text_parsers_total_absent_null "").1.2.2.2.2.1 (by decide),
   (text_parsers_total_absent_null "").2.1.1 (by decide),
   (text_parsers_total_absent_null "").2.2.1 (by decide)⟩

/-- The DNS-server probe never returns the empty string: the source's falsy
guard turns it into null. -/
theorem getDnsServer_some_ne_empty (res : CommandResult) (s : String) :
    getDnsServer res = some s → s ≠ "" := by
  intro hs
  unfold getDnsServer at hs
  rcases h : jsMatch reNameserver res.stdout with _ | caps
  · rw [h] at hs
    simp at hs
  · rw [h] at hs
    simp only [Option.map_some'] at hs
    by_cases h0 : caps.getD 0 "" = ""
    · rw [if_pos h0] at hs
      exact absurd hs (by simp)
    · rw [if_neg h0] at hs
      injection hs with h1
      rw [← h1]
      exact h0

/-- C10: the produced report's DNS source classification is `router` exactly
when the discovered DNS server is non-null and the gateway equals it as a
string (both then being non-null), and in every other case it is `system`. -/
theorem dns_source_classification (gateway : Option String) (res : CommandResult) :
    (dnsSource (getDnsServer res) gateway = "router"
        ↔ ∃ s : String, getDnsServer res = some s ∧ gateway = some s)
    ∧ (dnsSource (getDnsServer res) gateway = "router"
        ∨ dnsSource (getDnsServer res) gateway = "system") := by
  have hrs : ("system" : String) ≠ "router" := by decide
  cases hd : getDnsServer res with
  | none => simp [dnsSource, strTruthy, hrs]
  | some s =>
      have hne : s ≠ "" := getDnsServer_some_ne_empty res s hd
      cases gateway with
      | none => simp [dnsSource, strTruthy, hrs]
      | some g =>
          by_cases hsg : s = g
          · subst hsg
            simp [dnsSource, strTruthy, bne_iff_ne, hne]
          · simp [dnsSource, strTruthy, hrs, hsg, Ne.symm hsg]
